import Mathlib

/-!
Verification of the ferro-gemini audio visualizer core against its
natural-language specification.

The development shallowly embeds the per-frame pipeline of the most complete
engine iteration (the ThreeScene component with Ferrofluid and Surface modes)
plus the spectrum-analysis loop of the App component and the Gemini preset
generator service:

* JavaScript numbers are modelled as exact rationals where the code only does
  field arithmetic and comparisons, and as real numbers where the code calls
  Math.sin / Math.cos / Math.sqrt / Math.acos.
* JavaScript division is modelled by jsDiv : the result is none when the
  divisor is zero, mirroring the NaN that 0/0 produces at runtime.
* Uint8Array frequency data is modelled as List Nat.
* Math.random() calls are modelled by explicit stream arguments, so that
  determinism statements quantify over the streams.
-/

/-- JavaScript division on rationals: 0 as divisor yields NaN, modelled as
none. Any other divisor behaves as exact division. -/
def jsDiv (a b : ℚ) : Option ℚ :=
  if b = 0 then none else some (a / b)

/-- JavaScript division on reals, same NaN convention as jsDiv. -/
noncomputable def jsDivR (a b : ℝ) : Option ℝ :=
  if b = 0 then none else some (a / b)

/-- Band energies produced by the analysis loop (startAnalysisLoop in the App
component). Each field is an Option because every one of them is obtained by
a JavaScript division whose divisor can be zero for short buffers. -/
structure BandEnergies where
  overallAmplitude : Option ℚ
  bass : Option ℚ
  mid : Option ℚ
  treble : Option ℚ
deriving DecidableEq, Repr

/-- The running sums of the analysis loop: for each index i the value is added
to sum, and to bassSum when i < bassLimit, else to midSum when i < midLimit,
else to trebleSum.  Direct embedding of the for-loop body of
startAnalysisLoop. -/
def spectrumSums (bassLimit midLimit : ℕ) (data : List ℕ) : ℕ × ℕ × ℕ × ℕ :=
  data.enum.foldl
    (fun acc p =>
      if p.1 < bassLimit then (acc.1 + p.2, acc.2.1 + p.2, acc.2.2.1, acc.2.2.2)
      else if p.1 < midLimit then (acc.1 + p.2, acc.2.1, acc.2.2.1 + p.2, acc.2.2.2)
      else (acc.1 + p.2, acc.2.1, acc.2.2.1, acc.2.2.2 + p.2))
    (0, 0, 0, 0)

/-- Embedding of the spectrum reduction of startAnalysisLoop:
bassLimit = floor(bufferLength * 0.1), midLimit = floor(bufferLength * 0.5),
then each band is the sum over its index range divided by the number of bins
in the range.  The divisions use jsDiv because the code has no guard against
empty bands: bass is bassSum / bassLimit even when bassLimit = 0. -/
def analyseSpectrum (data : List ℕ) : BandEnergies :=
  let bufferLength := data.length
  let bassLimit := bufferLength / 10
  let midLimit := bufferLength / 2
  let s := spectrumSums bassLimit midLimit data
  { overallAmplitude := jsDiv s.1 bufferLength
    bass := jsDiv s.2.1 bassLimit
    mid := jsDiv s.2.2.1 (midLimit - bassLimit)
    treble := jsDiv s.2.2.2 (bufferLength - midLimit) }

/-- The per-frame band inputs consumed by the animate loop (audio.bass,
audio.mid, audio.treble). -/
structure AudioBands (K : Type) where
  bass : K
  mid : K
  treble : K
deriving DecidableEq, Repr

/-- The persistent smoothed-signal state of the animate loop: the four refs
smoothedBassRef, moodRef, hueShiftRef and cameraAngleRef. -/
@[ext]
structure SignalState (K : Type) where
  smoothedBass : K
  moodRaw : K
  hueShift : K
  cameraAngle : K
deriving DecidableEq, Repr

/-- All four refs start at 0. -/
def initialSignals (K : Type) [LinearOrderedField K] : SignalState K :=
  ⟨0, 0, 0, 0⟩

/-- One frame of the analysis section of animate (lines 292-300 and 321-322 of
the component): exponential bass smoothing, normalizedBass, energy/mood
smoothing, the exposed clamped mood, the hue accumulator with its wrap, and
the camera angle accumulator.  Returns the new ref state together with the
two derived per-frame values (normalizedBass, mood). -/
def advanceSignals {K : Type} [LinearOrderedField K] (s : SignalState K)
    (a : AudioBands K) : SignalState K × K × K :=
  let smoothedBass := s.smoothedBass + (a.bass - s.smoothedBass) * (15 / 100)
  let normalizedBass := min (smoothedBass / 255) 1
  let currentEnergy := (a.bass + a.mid + a.treble) / (255 * 3)
  let moodRaw := s.moodRaw + (currentEnergy - s.moodRaw) * (2 / 100)
  let mood := max 0 (min 1 (moodRaw * (15 / 10)))
  let hueShift0 := s.hueShift + 2 / 10000 + mood * (1 / 1000)
  let hueShift := if hueShift0 > 1 then hueShift0 - 1 else hueShift0
  let cameraAngle := s.cameraAngle + (1 / 1000 + mood * (5 / 1000))
  (⟨smoothedBass, moodRaw, hueShift, cameraAngle⟩, normalizedBass, mood)

/-- Folding the signal update over a sequence of per-frame band inputs. -/
def runSignals {K : Type} [LinearOrderedField K] (s : SignalState K)
    (l : List (AudioBands K)) : SignalState K :=
  l.foldl (fun st a => (advanceSignals st a).1) s

/-- A frame of silence: all three band energies zero. -/
def zeroBands (K : Type) [LinearOrderedField K] : AudioBands K := ⟨0, 0, 0⟩

/-- GLSL-like smoothstep helper of the component. -/
noncomputable def smoothstep (lo hi value : ℝ) : ℝ :=
  let x := max 0 (min 1 ((value - lo) / (hi - lo)))
  x * x * (3 - 2 * x)

/-- simpleNoise pseudo-noise helper of the component. -/
noncomputable def simpleNoise (x y z : ℝ) : ℝ :=
  Real.sin x * Real.cos y + Real.sin y * Real.cos z + Real.sin z * Real.cos x

/-- Math.ceil(Math.pow(count, 1/3)) under exact real semantics: the least k
with count <= k^3. -/
def cbrtCeil (n : ℕ) : ℕ :=
  Nat.find (show ∃ k, n ≤ k ^ 3 from ⟨n, Nat.le_self_pow (by norm_num) n⟩)

/-- Grid-mode placement (the GRID branch of updateParticles): cube-root-sized
grid with spacing 3 + bass/100*mood, shifted by offset = gridSize*spacing/2,
plus Math.random jitter (modelled by the stream jitter, consumed at indices
3i, 3i+1, 3i+2) applied only when mood > 0.7. -/
noncomputable def gridPosition (count i : ℕ) (bass mood : ℝ) (jitter : ℕ → ℝ) :
    ℝ × ℝ × ℝ :=
  let gridSize := cbrtCeil count
  let spacing : ℝ := 3 + bass / 100 * mood
  let offset := (gridSize : ℝ) * spacing / 2
  let x := ((i % gridSize : ℕ) : ℝ) * spacing - offset
  let y := ((i / gridSize % gridSize : ℕ) : ℝ) * spacing - offset
  let z := ((i / (gridSize * gridSize) : ℕ) : ℝ) * spacing - offset
  if mood > 7 / 10 then
    (x + (jitter (3 * i) - 1 / 2) * (1 / 2),
     y + (jitter (3 * i + 1) - 1 / 2) * (1 / 2),
     z + (jitter (3 * i + 2) - 1 / 2) * (1 / 2))
  else (x, y, z)

/-- Golden-spiral latitude parameter t = i / count of the FERROFLUID branch. -/
noncomputable def sphereT (count i : ℕ) : ℝ := (i : ℝ) / count

/-- inclination = acos(1 - 2t). -/
noncomputable def inclination (count i : ℕ) : ℝ :=
  Real.arccos (1 - 2 * sphereT count i)

/-- azimuth = angleIncrement * i, angleIncrement = 2 pi * (1+sqrt 5)/2. -/
noncomputable def azimuth (i : ℕ) : ℝ :=
  Real.pi * 2 * ((1 + Real.sqrt 5) / 2) * i

/-- Unit-sphere point of instance i, x component. -/
noncomputable def sphereX (count i : ℕ) : ℝ :=
  Real.sin (inclination count i) * Real.cos (azimuth i)

/-- Unit-sphere point of instance i, y component. -/
noncomputable def sphereY (count i : ℕ) : ℝ :=
  Real.sin (inclination count i) * Real.sin (azimuth i)

/-- Unit-sphere point of instance i, z component. -/
noncomputable def sphereZ (count i : ℕ) : ℝ :=
  Real.cos (inclination count i)

/-- noiseAmp = 4 + (bass/255)*8. -/
noncomputable def noiseAmp (bass : ℝ) : ℝ := 4 + bass / 255 * 8

/-- First noise octave n1 = simpleNoise(sx*3+time, sy*3+time, sz*3). -/
noncomputable def ferroN1 (count i : ℕ) (time : ℝ) : ℝ :=
  simpleNoise (sphereX count i * 3 + time) (sphereY count i * 3 + time)
    (sphereZ count i * 3)

/-- Second noise octave n2 = simpleNoise(sx*10, sy*10+time*2, sz*10). -/
noncomputable def ferroN2 (count i : ℕ) (time : ℝ) : ℝ :=
  simpleNoise (sphereX count i * 10) (sphereY count i * 10 + time * 2)
    (sphereZ count i * 10)

/-- spike = max(0, n1 + n2*0.5): the clamped two-octave noise. -/
noncomputable def ferroSpike (count i : ℕ) (time : ℝ) : ℝ :=
  max 0 (ferroN1 count i time + ferroN2 count i time * (1 / 2))

/-- displacement = radiusBase + spike*noiseAmp*(0.5+mood), radiusBase = 12. -/
noncomputable def ferroDisplacement (count i : ℕ) (time bass mood : ℝ) : ℝ :=
  12 + ferroSpike count i time * noiseAmp bass * (1 / 2 + mood)

/-- Ferrofluid-mode position of instance i before pointer repulsion. -/
noncomputable def ferroPosition (count i : ℕ) (time bass mood : ℝ) : ℝ × ℝ × ℝ :=
  (sphereX count i * ferroDisplacement count i time bass mood,
   sphereY count i * ferroDisplacement count i time bass mood,
   sphereZ count i * ferroDisplacement count i time bass mood)

/-- dist = sqrt(dx*dx + dy*dy) between an instance's XY position and the
pointer's world projection. -/
noncomputable def repDist (x y mwx mwy : ℝ) : ℝ :=
  Real.sqrt ((x - mwx) * (x - mwx) + (y - mwy) * (y - mwy))

/-- force = (1 - dist/repulsionRadius) * 5 with repulsionRadius = 10. -/
noncomputable def repForce (x y mwx mwy : ℝ) : ℝ :=
  (1 - repDist x y mwx mwy / 10) * 5

/-- Pointer repulsion applied to every particle mode: inside radius 10 the
instance is pushed along (dx/dist, dy/dist) by force.  The divisions are the
source's unguarded dx/dist and dy/dist, so dist = 0 poisons both coordinates
with NaN (none). -/
noncomputable def applyRepulsion (x y mwx mwy : ℝ) : Option (ℝ × ℝ) :=
  if repDist x y mwx mwy < 10 then
    match jsDivR (x - mwx) (repDist x y mwx mwy),
        jsDivR (y - mwy) (repDist x y mwx mwy) with
    | some ux, some uy =>
        some (x + ux * repForce x y mwx mwy, y + uy * repForce x y mwx mwy)
    | _, _ => none
  else some (x, y)

/-- Ferrofluid position of instance i after the pointer-repulsion step; mouse
coordinates are normalized device coordinates, projected to world at scale
20 as in updateParticles. -/
noncomputable def ferroFinalPosition (count i : ℕ)
    (time bass mood mouseX mouseY : ℝ) : Option (ℝ × ℝ × ℝ) :=
  match applyRepulsion (ferroPosition count i time bass mood).1
      (ferroPosition count i time bass mood).2.1 (mouseX * 20) (mouseY * 20) with
  | some q => some (q.1, q.2, (ferroPosition count i time bass mood).2.2)
  | none => none

/-- An optional position is a finite point strictly inside the ball of radius
12 about the origin. -/
def insideRadius12 : Option (ℝ × ℝ × ℝ) → Prop
  | some p => p.1 ^ 2 + p.2.1 ^ 2 + p.2.2 ^ 2 < 144
  | none => False

/-- Vertex displacement of the Surface branch: 1 + freqVal*0.5*sensitivity +
noise*0.2*mood, with freqVal = data[i mod dataLen]/255 and the noise sampled
at the rest position scaled by 0.2 and offset by time.  The modelled list
access defaults to 0; the index is always in range when the buffer is
nonempty. -/
noncomputable def surfaceDisplacement (sensitivity time mood : ℝ)
    (data : List ℕ) (i : ℕ) (v : ℝ × ℝ × ℝ) : ℝ :=
  1 + ((data.getD (i % data.length) 0 : ℕ) : ℝ) / 255 * (1 / 2) * sensitivity +
    simpleNoise (v.1 * (2 / 10) + time) (v.2.1 * (2 / 10) + time)
      (v.2.2 * (2 / 10)) * (2 / 10) * mood

/-- Pointer-proximity bulge of the Surface branch: world pointer at
(mouse.x*15, mouse.y*15); inside radius 8 the factor is (1 - dist/8)*2,
otherwise 0. -/
noncomputable def mouseFactor (mouse : ℝ × ℝ) (v : ℝ × ℝ × ℝ) : ℝ :=
  if Real.sqrt ((v.1 - mouse.1 * 15) ^ 2 + (v.2.1 - mouse.2 * 15) ^ 2) < 8 then
    (1 - Real.sqrt ((v.1 - mouse.1 * 15) ^ 2 + (v.2.1 - mouse.2 * 15) ^ 2) / 8) * 2
  else 0

/-- The surface mesh buffers: the immutable originalPositions copy and the
live position attribute. -/
structure SurfaceState where
  rest : List (ℝ × ℝ × ℝ)
  live : List (ℝ × ℝ × ℝ)

/-- One Surface-mode frame (the vertex loop of animate): for every vertex
index, read the rest position, compute totalScale = displacement +
mouseFactor, and write (ox*totalScale, oy*totalScale, oz*totalScale) into the
live attribute.  The rest array is only read. -/
noncomputable def surfaceFrame (sensitivity time mood : ℝ) (data : List ℕ)
    (mouse : ℝ × ℝ) (s : SurfaceState) : SurfaceState :=
  { rest := s.rest
    live := s.rest.mapIdx fun i v =>
      (v.1 * (surfaceDisplacement sensitivity time mood data i v + mouseFactor mouse v),
       v.2.1 * (surfaceDisplacement sensitivity time mood data i v + mouseFactor mouse v),
       v.2.2 * (surfaceDisplacement sensitivity time mood data i v + mouseFactor mouse v)) }

/-- The six visual modes of the most complete iteration (types.ts). -/
inductive VisualizerMode
  | orbit
  | wave
  | grid
  | chaos
  | ferrofluid
  | surface
deriving DecidableEq, Repr

/-- The six particle geometries (types.ts). -/
inductive GeometryType
  | box
  | sphere
  | tetrahedron
  | octahedron
  | torus
  | cone
deriving DecidableEq, Repr

/-- VisualConfig of types.ts.  Numeric fields are exact rationals; colors are
the hex strings of the source. -/
structure VisualConfig where
  mode : VisualizerMode
  geometryType : GeometryType
  primaryColor : String
  secondaryColor : String
  backgroundColor : String
  particleSize : ℚ
  rotationSpeed : ℚ
  sensitivity : ℚ
  bloomIntensity : ℚ
  description : String
deriving DecidableEq, Repr

/-- DEFAULT_CONFIG of the gemini service. -/
def DEFAULT_CONFIG : VisualConfig :=
  { mode := .orbit
    geometryType := .box
    primaryColor := "#00ffcc"
    secondaryColor := "#ff00ff"
    backgroundColor := "#1a1a2e"
    particleSize := 1 / 2
    rotationSpeed := 1 / 2
    sensitivity := 3 / 2
    bloomIntensity := 1
    description := "Default cyberpunk aesthetic" }

/-- An object obtained from JSON.parse(response.text), viewed through the
VisualConfig interface: every field may be absent, because the service code
applies a compile-time type assertion and performs no runtime validation. -/
structure RawPreset where
  mode : Option VisualizerMode
  geometryType : Option GeometryType
  primaryColor : Option String
  secondaryColor : Option String
  backgroundColor : Option String
  particleSize : Option ℚ
  rotationSpeed : Option ℚ
  sensitivity : Option ℚ
  bloomIntensity : Option ℚ
  description : Option String
deriving DecidableEq, Repr

/-- A complete VisualConfig viewed as a parsed object with all fields. -/
def VisualConfig.toRaw (c : VisualConfig) : RawPreset :=
  ⟨some c.mode, some c.geometryType, some c.primaryColor, some c.secondaryColor,
   some c.backgroundColor, some c.particleSize, some c.rotationSpeed,
   some c.sensitivity, some c.bloomIntensity, some c.description⟩

/-- All ten fields are present. -/
def RawPreset.isComplete (p : RawPreset) : Bool :=
  p.mode.isSome && p.geometryType.isSome && p.primaryColor.isSome &&
  p.secondaryColor.isSome && p.backgroundColor.isSome && p.particleSize.isSome &&
  p.rotationSpeed.isSome && p.sensitivity.isSome && p.bloomIntensity.isSome &&
  p.description.isSome

/-- Outcome of the generator collaborator call, at the interface the service
code observes: the API call threw; or it returned a response without text;
or it returned text whose JSON.parse outcome is given (none when parsing
throws). -/
inductive GenResponse
  | apiError
  | noText
  | text (parsed : Option RawPreset)

/-- generateVisualConfig of the gemini service: inside try, a response with
text returns JSON.parse(text) as VisualConfig with no validation; a response
without text returns DEFAULT_CONFIG; a thrown error (API failure or
JSON.parse failure) is caught and DEFAULT_CONFIG is returned. -/
def generateVisualConfig : GenResponse → RawPreset
  | .text (some p) => p
  | _ => DEFAULT_CONFIG.toRaw

/-- Parse result of the JSON text "\x7b\x7d": an object with no fields. -/
def emptyPreset : RawPreset :=
  ⟨none, none, none, none, none, none, none, none, none, none⟩

/-- Componentwise linear interpolation of THREE.Vector3.lerp and
THREE.Color.lerp: a + (b - a) * t. -/
noncomputable def lerp3 (a b : ℝ × ℝ × ℝ) (t : ℝ) : ℝ × ℝ × ℝ :=
  (a.1 + (b.1 - a.1) * t, a.2.1 + (b.2.1 - a.2.1) * t, a.2.2 + (b.2.2 - a.2.2) * t)

/-- Componentwise linear interpolation of THREE.Vector2.lerp. -/
noncomputable def lerp2 (a b : ℝ × ℝ) (t : ℝ) : ℝ × ℝ :=
  (a.1 + (b.1 - a.1) * t, a.2 + (b.2 - a.2) * t)

/-- Orbit-mode position of instance i, with rand1 = sin(i*12.34). -/
noncomputable def orbitPosition (cfg : VisualConfig) (i : ℕ)
    (time bass mid mood : ℝ) : ℝ × ℝ × ℝ :=
  let theta := i * (1 / 10) + time * ((cfg.rotationSpeed : ℝ) + mood)
  let expansion := bass / 255 * (5 + mood * 10)
  let radius := 10 + expansion + Real.sin (i * (1234 / 100)) * mood * 5
  (Real.sin theta * radius * Real.cos (i * (5 / 100) + time * (1 / 10)),
   Real.cos theta * radius * Real.sin (i * (5 / 100) + time * (1 / 10)),
   Real.sin (i * (1 / 10)) * 10 + mid / 255 * 5)

/-- Wave-mode position of instance i. -/
noncomputable def wavePosition (i : ℕ) (time bass mood normalizedFreq : ℝ) :
    ℝ × ℝ × ℝ :=
  let x : ℝ := (((i % 50 : ℕ) : ℝ) - 25) * (15 / 10)
  let z : ℝ := (((i / 50 : ℕ) : ℝ) - 20) * (15 / 10)
  let waveHeight := 5 + bass / 255 * 10 * mood
  let waveFreq := 2 / 10 + mood * (5 / 10)
  (x, Real.sin (x * waveFreq + time * (2 + mood * 2)) * waveHeight +
    normalizedFreq * 10, z)

/-- Chaos-mode position of instance i. -/
noncomputable def chaosPosition (i : ℕ) (bass mood : ℝ) : ℝ × ℝ × ℝ :=
  let explosion := 1 + bass / 50 * (1 / 2 + mood)
  (Real.sin i * 20 * explosion, Real.cos i * 20 * explosion,
   Real.sin (i * (1 / 2)) * 20 * explosion)

/-- Mode dispatch of updateParticles.  The SURFACE case is unreachable (the
caller branches to the surface path first) and leaves x = y = z = 0 as the
loop initialisers do. -/
noncomputable def modePosition (cfg : VisualConfig) (count i : ℕ)
    (time bass mid mood normalizedFreq : ℝ) (jitter : ℕ → ℝ) : ℝ × ℝ × ℝ :=
  match cfg.mode with
  | .ferrofluid => ferroPosition count i time bass mood
  | .orbit => orbitPosition cfg i time bass mid mood
  | .wave => wavePosition i time bass mood normalizedFreq
  | .grid => gridPosition count i bass mood jitter
  | .chaos => chaosPosition i bass mood
  | .surface => (0, 0, 0)

/-- One instance's outputs: the transform (position and rotation Euler,
poisoned to none when the repulsion divisions produce NaN), the scale, and
the instance color. -/
structure ParticleOut where
  transform : Option ((ℝ × ℝ × ℝ) × (ℝ × ℝ × ℝ))
  scale : ℝ
  color : ℝ × ℝ × ℝ

/-- Per-instance body of updateParticles: frequency sample (with the || 0
fallback), base scale, mode position, pointer repulsion, the Ferrofluid and
pointer and intensity scale multipliers, rotation (Euler from the displaced
position for non-Ferrofluid, lookAt origin for Ferrofluid, modelled by the
backend-supplied lookAtE), and the color mix with beat flash and pointer
highlight. -/
noncomputable def particleUpdate (lookAtE : ℝ × ℝ × ℝ → ℝ × ℝ × ℝ)
    (cfg : VisualConfig) (time : ℝ) (data : List ℕ) (bass mid mood : ℝ)
    (mouse : ℝ × ℝ) (jitter : ℕ → ℝ) (cPrimary cSecondary : ℝ × ℝ × ℝ)
    (count i : ℕ) : ParticleOut :=
  let normalizedFreq := ((data.getD (i * data.length / count) 0 : ℕ) : ℝ) / 255
  let scale0 := (cfg.particleSize : ℝ) * (1 / 2 + normalizedFreq)
  let p := modePosition cfg count i time bass mid mood normalizedFreq jitter
  let scale1 :=
    if cfg.mode = .ferrofluid then
      scale0 * (12 / 10 - (ferroDisplacement count i time bass mood - 12) / 10)
    else scale0
  let mwx := mouse.1 * 20
  let mwy := mouse.2 * 20
  let dist := repDist p.1 p.2.1 mwx mwy
  let scale2 := if dist < 10 then scale1 * (15 / 10) else scale1
  let scale3 :=
    if mood > 6 / 10 ∧ normalizedFreq > 1 / 2 then scale2 * (15 / 10) else scale2
  let transform :=
    match applyRepulsion p.1 p.2.1 mwx mwy with
    | some q =>
        some ((q.1, q.2, p.2.2),
          if cfg.mode = .ferrofluid then lookAtE (q.1, q.2, p.2.2)
          else (time + q.1, time + q.2, time + p.2.2))
    | none => none
  let mixFactor :=
    if mood > 6 / 10 then smoothstep (4 / 10) (6 / 10) normalizedFreq
    else normalizedFreq
  let c0 := lerp3 cPrimary cSecondary mixFactor
  let c1 :=
    if bass > 230 ∧ mood > 3 / 10 then lerp3 c0 (1, 1, 1) (1 / 2 * normalizedFreq)
    else c0
  let c2 := if dist < 10 then lerp3 c1 (1, 1, 1) (3 / 10) else c1
  ⟨transform, scale3, c2⟩

/-- updateParticles over all instance indices. -/
noncomputable def updateParticles (lookAtE : ℝ × ℝ × ℝ → ℝ × ℝ × ℝ)
    (cfg : VisualConfig) (time : ℝ) (data : List ℕ) (bass mid mood : ℝ)
    (mouse : ℝ × ℝ) (jitter : ℕ → ℝ) (cPrimary cSecondary : ℝ × ℝ × ℝ)
    (count : ℕ) : List ParticleOut :=
  (List.range count).map
    (particleUpdate lookAtE cfg time data bass mid mood mouse jitter cPrimary
      cSecondary count)

/-- The mutable per-session state one animate frame reads and writes: the
clock, the eased pointer, the smoothed signals, the camera position and the
particle-mesh rotation accumulators. -/
structure FrameState where
  time : ℝ
  mouse : ℝ × ℝ
  sig : SignalState ℝ
  cameraPos : ℝ × ℝ × ℝ
  meshRotY : ℝ
  meshRotZ : ℝ

/-- Everything one animate frame hands to the rendering backend, together
with the new state. -/
structure TickResult where
  state : FrameState
  bloomStrength : ℝ
  surfaceLive : Option (List (ℝ × ℝ × ℝ))
  instances : Option (List ParticleOut)

/-- The audio data record shared by the analysis loop (types.ts AudioData). -/
structure AudioData where
  frequencyData : List ℕ
  overallAmplitude : ℝ
  bass : ℝ
  mid : ℝ
  treble : ℝ

/-- The all-zero audio frame: the initial audioDataRef contents (a fresh
Uint8Array(128) and zero bands). -/
def zeroAudio : AudioData :=
  ⟨List.replicate 128 0, 0, 0, 0, 0⟩

/-- One full frame of the animate loop of the most complete component
iteration.  oHSL is THREE's Color.offsetHSL and lookAtE the Euler extraction
of THREE's lookAt, both external rendering-backend collaborators passed as
parameters; randCam is the Math.random() sample of the camera shake; jitter
is the Math.random() stream of the Grid-mode jitter; rest is the surface
mesh's rest vertex array.  Background-shader uniform updates and material
color easing are rendering-backend state and are not part of the modelled
output. -/
noncomputable def animate (oHSL : ℝ × ℝ × ℝ → ℝ → ℝ → ℝ → ℝ × ℝ × ℝ)
    (lookAtE : ℝ × ℝ × ℝ → ℝ × ℝ × ℝ) (cfg : VisualConfig)
    (basePrimary baseSecondary : ℝ × ℝ × ℝ) (rest : List (ℝ × ℝ × ℝ))
    (audio : AudioData) (targetMouse : ℝ × ℝ) (randCam : ℝ) (jitter : ℕ → ℝ)
    (st : FrameState) : TickResult :=
  let time := st.time + 5 / 1000
  let mouse := lerp2 st.mouse targetMouse (1 / 10)
  match advanceSignals st.sig ⟨audio.bass, audio.mid, audio.treble⟩ with
  | (sig, normalizedBass, mood) =>
    let dynamicPrimary := oHSL basePrimary sig.hueShift (mood * (2 / 10)) 0
    let dynamicSecondary := oHSL baseSecondary sig.hueShift (mood * (2 / 10)) 0
    let radius := 30 - normalizedBass * (5 + mood * 5)
    let camX := Real.sin sig.cameraAngle * radius + mouse.1 * 2
    let camZ := Real.cos sig.cameraAngle * radius
    let camY := 5 + Real.sin (time * (5 / 10)) * 2 +
      (randCam - 1 / 2) * mood * normalizedBass * 2 + mouse.2 * 2
    let cameraPos := lerp3 st.cameraPos (camX, camY, camZ) (1 / 10)
    let bloom := (cfg.bloomIntensity : ℝ) * (1 / 2) + normalizedBass * (1 + mood)
    if cfg.mode = .surface then
      ⟨⟨time, mouse, sig, cameraPos, st.meshRotY, st.meshRotZ⟩, bloom,
        some (surfaceFrame (cfg.sensitivity : ℝ) time mood
          audio.frequencyData mouse ⟨rest, rest⟩).live,
        none⟩
    else
      let rotationFactor : ℝ := if cfg.mode = .ferrofluid then 2 / 10 else 1
      ⟨⟨time, mouse, sig, cameraPos,
          st.meshRotY +
            (1 / 1000 + mood * (5 / 1000)) * (cfg.rotationSpeed : ℝ) * rotationFactor,
          st.meshRotZ + (5 / 10000 + mood * (2 / 1000)) * rotationFactor⟩,
        bloom, none,
        some (updateParticles lookAtE cfg time audio.frequencyData
          audio.bass audio.mid mood mouse jitter dynamicPrimary dynamicSecondary 2500)⟩

/-- A session-start frame state with given clock, pointer and camera: all
smoothed-signal refs are zero, as on mount. -/
def startState (time : ℝ) (mouse : ℝ × ℝ) (cameraPos : ℝ × ℝ × ℝ)
    (rotY rotZ : ℝ) : FrameState :=
  ⟨time, mouse, ⟨0, 0, 0, 0⟩, cameraPos, rotY, rotZ⟩

theorem advanceSignals_fst_smoothedBass {K : Type} [LinearOrderedField K]
    (s : SignalState K) (a : AudioBands K) :
    ((advanceSignals s a).1).smoothedBass =
      s.smoothedBass + (a.bass - s.smoothedBass) * (15 / 100) := rfl

theorem advanceSignals_normalizedBass {K : Type} [LinearOrderedField K]
    (s : SignalState K) (a : AudioBands K) :
    (advanceSignals s a).2.1 =
      min ((s.smoothedBass + (a.bass - s.smoothedBass) * (15 / 100)) / 255) 1 := rfl

theorem advanceSignals_mood {K : Type} [LinearOrderedField K]
    (s : SignalState K) (a : AudioBands K) :
    (advanceSignals s a).2.2 =
      max 0 (min 1 ((s.moodRaw +
        ((a.bass + a.mid + a.treble) / (255 * 3) - s.moodRaw) * (2 / 100)) * (15 / 10))) := rfl

theorem advanceSignals_hueShift {K : Type} [LinearOrderedField K]
    (s : SignalState K) (a : AudioBands K) :
    ((advanceSignals s a).1).hueShift =
      if s.hueShift + 2 / 10000 + (advanceSignals s a).2.2 * (1 / 1000) > 1 then
        s.hueShift + 2 / 10000 + (advanceSignals s a).2.2 * (1 / 1000) - 1
      else s.hueShift + 2 / 10000 + (advanceSignals s a).2.2 * (1 / 1000) := rfl

theorem advanceSignals_cameraAngle {K : Type} [LinearOrderedField K]
    (s : SignalState K) (a : AudioBands K) :
    ((advanceSignals s a).1).cameraAngle =
      s.cameraAngle + (1 / 1000 + (advanceSignals s a).2.2 * (5 / 1000)) := rfl

theorem advanceSignals_mood_nonneg {K : Type} [LinearOrderedField K]
    (s : SignalState K) (a : AudioBands K) : 0 ≤ (advanceSignals s a).2.2 := by
  rw [advanceSignals_mood]; exact le_max_left _ _

theorem advanceSignals_mood_le_one {K : Type} [LinearOrderedField K]
    (s : SignalState K) (a : AudioBands K) : (advanceSignals s a).2.2 ≤ 1 := by
  rw [advanceSignals_mood]
  exact max_le (by norm_num) (min_le_left _ _)

theorem runSignals_cons {K : Type} [LinearOrderedField K] (s : SignalState K)
    (a : AudioBands K) (l : List (AudioBands K)) :
    runSignals s (a :: l) = runSignals (advanceSignals s a).1 l := rfl

theorem runSignals_smoothedBass_nonneg (l : List (AudioBands ℚ)) :
    ∀ s : SignalState ℚ, 0 ≤ s.smoothedBass → (∀ a ∈ l, 0 ≤ a.bass) →
      0 ≤ (runSignals s l).smoothedBass := by
  induction l with
  | nil => intro s hs _; simpa [runSignals] using hs
  | cons a l ih =>
    intro s hs hl
    rw [runSignals_cons]
    refine ih _ ?_ fun b hb => hl b (List.mem_cons_of_mem _ hb)
    rw [advanceSignals_fst_smoothedBass]
    have := hl a (List.mem_cons_self _ _)
    nlinarith

theorem advanceSignals_normalizedBass_bounds {K : Type} [LinearOrderedField K]
    (s : SignalState K) (a : AudioBands K) (hs : 0 ≤ s.smoothedBass)
    (hb : 0 ≤ a.bass) :
    0 ≤ (advanceSignals s a).2.1 ∧ (advanceSignals s a).2.1 ≤ 1 := by
  rw [advanceSignals_normalizedBass]
  refine ⟨le_min (div_nonneg (by nlinarith) (by norm_num)) (by norm_num),
    min_le_right _ _⟩

/-- Claim C1: for every frame of every run over non-negative band inputs
starting at the initial (zero) refs, the exposed normalizedBass (impact) and
clamped mood both lie in [0,1], whatever the input magnitudes. -/
theorem c1_mood_impact_in_unit_interval (l : List (AudioBands ℚ))
    (h : ∀ a ∈ l, 0 ≤ a.bass ∧ 0 ≤ a.mid ∧ 0 ≤ a.treble)
    (i : ℕ) (hi : i < l.length) :
    let out := advanceSignals (runSignals (initialSignals ℚ) (l.take i))
      (l.getD i (zeroBands ℚ))
    (0 ≤ out.2.1 ∧ out.2.1 ≤ 1) ∧ 0 ≤ out.2.2 ∧ out.2.2 ≤ 1 := by
  intro out
  have hsb : 0 ≤ (runSignals (initialSignals ℚ) (l.take i)).smoothedBass := by
    refine runSignals_smoothedBass_nonneg _ _ (by simp [initialSignals]) ?_
    exact fun a ha => (h a (List.take_subset _ _ ha)).1
  have hbass : 0 ≤ (l.getD i (zeroBands ℚ)).bass := by
    rw [List.getD_eq_getElem _ _ hi]
    exact (h _ (List.getElem_mem _)).1
  exact ⟨advanceSignals_normalizedBass_bounds _ _ hsb hbass,
    advanceSignals_mood_nonneg _ _, advanceSignals_mood_le_one _ _⟩

/-- Witness for C1: one frame with bass 500 (far above the 0..255 range),
mid 3, treble 1. -/
theorem c1_witness :
    (∀ a ∈ [(⟨500, 3, 1⟩ : AudioBands ℚ)], 0 ≤ a.bass ∧ 0 ≤ a.mid ∧ 0 ≤ a.treble) ∧
    0 < [(⟨500, 3, 1⟩ : AudioBands ℚ)].length ∧
    ((0 ≤ (advanceSignals (runSignals (initialSignals ℚ)
        ([(⟨500, 3, 1⟩ : AudioBands ℚ)].take 0))
        ([(⟨500, 3, 1⟩ : AudioBands ℚ)].getD 0 (zeroBands ℚ))).2.1 ∧
      (advanceSignals (runSignals (initialSignals ℚ)
        ([(⟨500, 3, 1⟩ : AudioBands ℚ)].take 0))
        ([(⟨500, 3, 1⟩ : AudioBands ℚ)].getD 0 (zeroBands ℚ))).2.1 ≤ 1) ∧
      0 ≤ (advanceSignals (runSignals (initialSignals ℚ)
        ([(⟨500, 3, 1⟩ : AudioBands ℚ)].take 0))
        ([(⟨500, 3, 1⟩ : AudioBands ℚ)].getD 0 (zeroBands ℚ))).2.2 ∧
      (advanceSignals (runSignals (initialSignals ℚ)
        ([(⟨500, 3, 1⟩ : AudioBands ℚ)].take 0))
        ([(⟨500, 3, 1⟩ : AudioBands ℚ)].getD 0 (zeroBands ℚ))).2.2 ≤ 1) :=
  ⟨by decide, by decide,
    c1_mood_impact_in_unit_interval [⟨500, 3, 1⟩] (by decide) 0 (by decide)⟩

theorem advanceSignals_silent_step (h c : ℚ) (hw : h + 1 / 5000 ≤ 1) :
    (advanceSignals ⟨0, 0, h, c⟩ (zeroBands ℚ)).1 =
      ⟨0, 0, h + 1 / 5000, c + 1 / 1000⟩ := by
  have hmood : (advanceSignals (⟨0, 0, h, c⟩ : SignalState ℚ) (zeroBands ℚ)).2.2 = 0 := by
    rw [advanceSignals_mood]
    norm_num [zeroBands]
  refine SignalState.ext ?_ ?_ ?_ ?_
  · rw [advanceSignals_fst_smoothedBass]; norm_num [zeroBands]
  · show (0 : ℚ) + ((0 + 0 + 0) / (255 * 3) - 0) * (2 / 100) = 0
    norm_num
  · rw [advanceSignals_hueShift, hmood]
    have : ¬ (h + 2 / 10000 + 0 * (1 / 1000) > 1) := by linarith
    rw [if_neg this]
    ring
  · rw [advanceSignals_cameraAngle, hmood]
    ring

theorem runSignals_silence (n : ℕ) :
    ∀ h c : ℚ, h + n / 5000 ≤ 1 →
      runSignals ⟨0, 0, h, c⟩ (List.replicate n (zeroBands ℚ)) =
        ⟨0, 0, h + n / 5000, c + n / 1000⟩ := by
  induction n with
  | zero => intro h c _; simp [runSignals]
  | succ n ih =>
    intro h c hn
    have hcast : ((n + 1 : ℕ) : ℚ) = (n : ℚ) + 1 := by push_cast; ring
    have hn' : (h + 1 / 5000) + (n : ℚ) / 5000 ≤ 1 := by
      rw [hcast] at hn; linarith
    rw [List.replicate_succ, runSignals_cons,
      advanceSignals_silent_step h c (by rw [hcast] at hn; nlinarith [Nat.cast_nonneg (α := ℚ) n]),
      ih _ _ hn']
    refine SignalState.ext rfl rfl ?_ ?_ <;> · rw [hcast]; ring

/-- Counterexample to C6: after 5000 consecutive silent frames from the
initial state, hueShift is exactly 1, which is not < 1, so hueShift does not
remain within [0,1): the wrap fires only on hueShift > 1, and the value 1 is
reachable. -/
theorem c6_counterexample :
    (runSignals (initialSignals ℚ)
      (List.replicate 5000 (zeroBands ℚ))).hueShift = 1 ∧
    ¬ (runSignals (initialSignals ℚ)
      (List.replicate 5000 (zeroBands ℚ))).hueShift < 1 := by
  have h := runSignals_silence 5000 0 0 (by norm_num)
  rw [show initialSignals ℚ = ⟨0, 0, 0, 0⟩ from rfl, h]
  norm_num

/-- Claim C6 (amended): each frame moves hueShift by step
0.0002 + mood*0.001 > 0 modulo 1 and keeps it within the closed interval
[0,1] (1 included, since the wrap tests hueShift > 1 strictly), and strictly
increases cameraAngle, for the clamped mood in [0,1] computed that frame. -/
theorem c6_hue_bounded_camera_increasing (s : SignalState ℚ) (a : AudioBands ℚ)
    (h0 : 0 ≤ s.hueShift) (h1 : s.hueShift ≤ 1) :
    let r := advanceSignals s a
    let step := 2 / 10000 + r.2.2 * (1 / 1000)
    (0 ≤ r.1.hueShift ∧ r.1.hueShift ≤ 1) ∧ 0 < step ∧
      (r.1.hueShift = s.hueShift + step ∨
        r.1.hueShift = s.hueShift + step - 1) ∧
      s.cameraAngle < r.1.cameraAngle := by
  intro r step
  have hm0 : 0 ≤ r.2.2 := advanceSignals_mood_nonneg s a
  have hm1 : r.2.2 ≤ 1 := advanceSignals_mood_le_one s a
  have hstep0 : 0 < step := by
    show (0 : ℚ) < 2 / 10000 + r.2.2 * (1 / 1000)
    nlinarith
  have hhue : r.1.hueShift =
      if s.hueShift + 2 / 10000 + r.2.2 * (1 / 1000) > 1 then
        s.hueShift + 2 / 10000 + r.2.2 * (1 / 1000) - 1
      else s.hueShift + 2 / 10000 + r.2.2 * (1 / 1000) :=
    advanceSignals_hueShift s a
  have hcam : s.cameraAngle < r.1.cameraAngle := by
    rw [show r.1.cameraAngle =
      s.cameraAngle + (1 / 1000 + r.2.2 * (5 / 1000)) from
        advanceSignals_cameraAngle s a]
    nlinarith
  refine ⟨?_, hstep0, ?_, hcam⟩
  · rw [hhue]
    split_ifs with hif
    · constructor <;> nlinarith
    · constructor <;> nlinarith
  · rw [hhue]
    split_ifs with hif
    · right; show _ = s.hueShift + (2 / 10000 + r.2.2 * (1 / 1000)) - 1; ring
    · left; show _ = s.hueShift + (2 / 10000 + r.2.2 * (1 / 1000)); ring

/-- Witness for the amended C6 at the initial state and a loud frame. -/
theorem c6_witness :
    (0 ≤ (initialSignals ℚ).hueShift ∧ (initialSignals ℚ).hueShift ≤ 1) ∧
    ((0 ≤ (advanceSignals (initialSignals ℚ) (⟨255, 255, 255⟩ : AudioBands ℚ)).1.hueShift ∧
      (advanceSignals (initialSignals ℚ) (⟨255, 255, 255⟩ : AudioBands ℚ)).1.hueShift ≤ 1) ∧
     0 < 2 / 10000 + (advanceSignals (initialSignals ℚ) (⟨255, 255, 255⟩ : AudioBands ℚ)).2.2 * (1 / 1000) ∧
     ((advanceSignals (initialSignals ℚ) (⟨255, 255, 255⟩ : AudioBands ℚ)).1.hueShift =
        (initialSignals ℚ).hueShift +
          (2 / 10000 + (advanceSignals (initialSignals ℚ) (⟨255, 255, 255⟩ : AudioBands ℚ)).2.2 * (1 / 1000)) ∨
      (advanceSignals (initialSignals ℚ) (⟨255, 255, 255⟩ : AudioBands ℚ)).1.hueShift =
        (initialSignals ℚ).hueShift +
          (2 / 10000 + (advanceSignals (initialSignals ℚ) (⟨255, 255, 255⟩ : AudioBands ℚ)).2.2 * (1 / 1000)) - 1) ∧
     (initialSignals ℚ).cameraAngle <
        (advanceSignals (initialSignals ℚ) (⟨255, 255, 255⟩ : AudioBands ℚ)).1.cameraAngle) :=
  ⟨⟨by decide, by decide⟩,
    c6_hue_bounded_camera_increasing (initialSignals ℚ) ⟨255, 255, 255⟩
      (by decide) (by decide)⟩

/-- Counterexample to C2: on the empty sample the bass band is NOT defined as
0: bassLimit = floor(0*0.1) = 0 and bass = bassSum / bassLimit divides by the
zero-length band, yielding NaN (none).  Moreover no minimum band size of one
bin exists: already for a nonempty 5-bin sample bassLimit = 0 and the bass
average again divides by zero. -/
theorem c2_counterexample :
    (analyseSpectrum []).bass = none ∧ (analyseSpectrum []).bass ≠ some 0 ∧
    (analyseSpectrum (List.replicate 5 7)).bass = none := by
  refine ⟨rfl, ?_, rfl⟩
  intro hcontra
  simp [analyseSpectrum, spectrumSums, jsDiv] at hcontra

/-- Claim C2 (amended): on an empty per-frame sample every one of the four
energies is a division by zero, hence NaN (none), not 0; the analysis is a
total function, so the frame is still processed with these values. -/
theorem c2_empty_sample_nan :
    analyseSpectrum [] = ⟨none, none, none, none⟩ := by
  simp [analyseSpectrum, spectrumSums, jsDiv]

/-- Claim C4: for a 100-bin spectrum with every magnitude 255, the bands are
bass = first 10 bins, mid = next 40 (indices 10..49), treble = last 50, and
the reduction returns bass = mid = treble = overall = 255 exactly. -/
theorem c4_all255_spectrum :
    (List.replicate 100 (255 : ℕ)).length / 10 = 10 ∧
    (List.replicate 100 (255 : ℕ)).length / 2 = 50 ∧
    spectrumSums 10 50 (List.replicate 100 255) = (25500, 2550, 10200, 12750) ∧
    analyseSpectrum (List.replicate 100 255) =
      ⟨some 255, some 255, some 255, some 255⟩ := by
  have h : spectrumSums 10 50 (List.replicate 100 255) =
      (25500, 2550, 10200, 12750) := by decide
  refine ⟨by simp, by simp, h, ?_⟩
  simp only [analyseSpectrum, List.length_replicate, h, jsDiv]
  norm_num

theorem cbrtCeil_eight : cbrtCeil 8 = 2 := by
  rw [cbrtCeil, Nat.find_eq_iff]
  refine ⟨by norm_num, ?_⟩
  intro k hk
  interval_cases k <;> norm_num

/-- Counterexample to C5: with count 8, bass 0, mood 0, instance 0 sits at
(-3,-3,-3) (grid coordinate 0 minus offset gridSize*spacing/2 = 3), whose
coordinates are not +-1.5, so the instances are not the corners of a
side-3 cube centered at the origin. -/
theorem c5_counterexample :
    gridPosition 8 0 0 0 (fun _ => 0) = (-3, -3, -3) ∧
    (-3 : ℝ) ≠ 3 / 2 ∧ (-3 : ℝ) ≠ -(3 / 2) := by
  refine ⟨?_, by norm_num, by norm_num⟩
  simp [gridPosition, cbrtCeil_eight]
  norm_num

/-- Claim C5 (amended): in Grid mode with count 8, bass 0, mood 0 the eight
instances occupy exactly the corners of the axis-aligned cube [-3,0]^3 of
side length spacing = 3, centered at (-1.5,-1.5,-1.5) rather than the
origin, and the jitter stream is never consulted since mood = 0 is not
greater than 0.7. -/
theorem c5_grid8_cube_corners (jitter : ℕ → ℝ) :
    (List.range 8).map (fun i => gridPosition 8 i 0 0 jitter) =
      [(-3, -3, -3), (0, -3, -3), (-3, 0, -3), (0, 0, -3),
       (-3, -3, 0), (0, -3, 0), (-3, 0, 0), (0, 0, 0)] := by
  have hr : List.range 8 = [0, 1, 2, 3, 4, 5, 6, 7] := by decide
  rw [hr]
  simp [gridPosition, cbrtCeil_eight]
  norm_num

/-- Counterexample to C9: a generator response whose text parses as the JSON
object with no fields is returned as-is by generateVisualConfig, so the
applied configuration is neither a complete valid preset nor the default:
the type assertion performs no validation. -/
theorem c9_counterexample :
    generateVisualConfig (.text (some emptyPreset)) = emptyPreset ∧
    emptyPreset.isComplete = false ∧
    emptyPreset ≠ DEFAULT_CONFIG.toRaw := by
  refine ⟨rfl, rfl, ?_⟩
  intro hcontra
  have := congrArg RawPreset.mode hcontra
  simp [emptyPreset, DEFAULT_CONFIG, VisualConfig.toRaw] at this

/-- Claim C9 (amended): when the generator call throws, returns no text, or
returns text that fails to parse, the complete default preset is applied as
a unit; but any successfully parsed object, however partial, is applied
unvalidated. -/
theorem c9_default_or_passthrough :
    generateVisualConfig .apiError = DEFAULT_CONFIG.toRaw ∧
    generateVisualConfig .noText = DEFAULT_CONFIG.toRaw ∧
    generateVisualConfig (.text none) = DEFAULT_CONFIG.toRaw ∧
    (DEFAULT_CONFIG.toRaw).isComplete = true ∧
    ∀ p : RawPreset, generateVisualConfig (.text (some p)) = p :=
  ⟨rfl, rfl, rfl, rfl, fun _ => rfl⟩

/-- Claim C10: whenever an instance's mode-computed XY position coincides
exactly with the pointer's projected world position, the distance is 0,
which passes the dist < 10 repulsion test, and the unguarded divisions
dx/dist and dy/dist poison the coordinates: the result is not a finite
displaced position (none, the model of NaN). -/
theorem c10_zero_distance_not_finite (x y : ℝ) :
    repDist x y x y = 0 ∧ (0 : ℝ) < 10 ∧ applyRepulsion x y x y = none := by
  have hd : repDist x y x y = 0 := by
    simp [repDist]
  refine ⟨hd, by norm_num, ?_⟩
  unfold applyRepulsion
  rw [hd]
  norm_num [jsDivR]

theorem mul_mem_unit_ball {a b : ℝ} (ha : -1 ≤ a) (ha' : a ≤ 1) (hb : -1 ≤ b)
    (hb' : b ≤ 1) : -1 ≤ a * b ∧ a * b ≤ 1 := by
  constructor <;> nlinarith

theorem simpleNoise_bounds (x y z : ℝ) :
    -3 ≤ simpleNoise x y z ∧ simpleNoise x y z ≤ 3 := by
  unfold simpleNoise
  obtain ⟨p1, p1'⟩ := mul_mem_unit_ball (Real.neg_one_le_sin x)
    (Real.sin_le_one x) (Real.neg_one_le_cos y) (Real.cos_le_one y)
  obtain ⟨p2, p2'⟩ := mul_mem_unit_ball (Real.neg_one_le_sin y)
    (Real.sin_le_one y) (Real.neg_one_le_cos z) (Real.cos_le_one z)
  obtain ⟨p3, p3'⟩ := mul_mem_unit_ball (Real.neg_one_le_sin z)
    (Real.sin_le_one z) (Real.neg_one_le_cos x) (Real.cos_le_one x)
  constructor <;> linarith

theorem mouseFactor_nonneg (mouse : ℝ × ℝ) (v : ℝ × ℝ × ℝ) :
    0 ≤ mouseFactor mouse v := by
  unfold mouseFactor
  split_ifs with h
  · nlinarith
  · exact le_refl 0

theorem surfaceDisplacement_pos (sensitivity time mood : ℝ) (data : List ℕ)
    (i : ℕ) (v : ℝ × ℝ × ℝ) (hm0 : 0 ≤ mood) (hm1 : mood ≤ 1)
    (hs : 0 ≤ sensitivity) :
    0 < surfaceDisplacement sensitivity time mood data i v := by
  unfold surfaceDisplacement
  obtain ⟨hn1, hn2⟩ := simpleNoise_bounds (v.1 * (2 / 10) + time)
    (v.2.1 * (2 / 10) + time) (v.2.2 * (2 / 10))
  have hfreq : (0 : ℝ) ≤ ((data.getD (i % data.length) 0 : ℕ) : ℝ) / 255 := by
    positivity
  set n := simpleNoise (v.1 * (2 / 10) + time) (v.2.1 * (2 / 10) + time)
    (v.2.2 * (2 / 10))
  nlinarith [mul_nonneg hfreq hs, mul_nonneg (by linarith : (0 : ℝ) ≤ n + 3) hm0]

theorem surfaceFrame_live_getD (sensitivity time mood : ℝ) (data : List ℕ)
    (mouse : ℝ × ℝ) (s : SurfaceState) (i : ℕ) (hi : i < s.rest.length) :
    (surfaceFrame sensitivity time mood data mouse s).live.getD i (0, 0, 0) =
      ((s.rest.getD i (0, 0, 0)).1 *
          (surfaceDisplacement sensitivity time mood data i (s.rest.getD i (0, 0, 0)) +
            mouseFactor mouse (s.rest.getD i (0, 0, 0))),
       (s.rest.getD i (0, 0, 0)).2.1 *
          (surfaceDisplacement sensitivity time mood data i (s.rest.getD i (0, 0, 0)) +
            mouseFactor mouse (s.rest.getD i (0, 0, 0))),
       (s.rest.getD i (0, 0, 0)).2.2 *
          (surfaceDisplacement sensitivity time mood data i (s.rest.getD i (0, 0, 0)) +
            mouseFactor mouse (s.rest.getD i (0, 0, 0)))) := by
  have hi' : i < ((surfaceFrame sensitivity time mood data mouse s).live).length := by
    simp [surfaceFrame]
    exact hi
  rw [List.getD_eq_getElem _ _ hi', List.getD_eq_getElem _ _ hi]
  show (s.rest.mapIdx _).get ⟨i, hi'⟩ = _
  rw [List.get_mapIdx _ _ i hi]
  simp [List.get_eq_getElem]

/-- Claim C7: a Surface-mode frame never writes the rest-position array
(byte for byte, the rest field of the state is unchanged), and every live
vertex is the corresponding rest vertex multiplied by the single scalar
displacement + mouseFactor, which is positive whenever mood is in [0,1] and
sensitivity is nonnegative: the deformation changes only the vertex's
distance from the mesh center, never its direction. -/
theorem c7_surface_rest_immutable_radial (sensitivity time mood : ℝ)
    (data : List ℕ) (mouse : ℝ × ℝ) (s : SurfaceState)
    (hm0 : 0 ≤ mood) (hm1 : mood ≤ 1) (hs : 0 ≤ sensitivity) :
    (surfaceFrame sensitivity time mood data mouse s).rest = s.rest ∧
    ∀ i, i < s.rest.length →
      (surfaceFrame sensitivity time mood data mouse s).live.getD i (0, 0, 0) =
        ((s.rest.getD i (0, 0, 0)).1 *
            (surfaceDisplacement sensitivity time mood data i (s.rest.getD i (0, 0, 0)) +
              mouseFactor mouse (s.rest.getD i (0, 0, 0))),
         (s.rest.getD i (0, 0, 0)).2.1 *
            (surfaceDisplacement sensitivity time mood data i (s.rest.getD i (0, 0, 0)) +
              mouseFactor mouse (s.rest.getD i (0, 0, 0))),
         (s.rest.getD i (0, 0, 0)).2.2 *
            (surfaceDisplacement sensitivity time mood data i (s.rest.getD i (0, 0, 0)) +
              mouseFactor mouse (s.rest.getD i (0, 0, 0)))) ∧
      0 < surfaceDisplacement sensitivity time mood data i (s.rest.getD i (0, 0, 0)) +
          mouseFactor mouse (s.rest.getD i (0, 0, 0)) := by
  refine ⟨rfl, fun i hi =>
    ⟨surfaceFrame_live_getD sensitivity time mood data mouse s i hi, ?_⟩⟩
  have h1 := surfaceDisplacement_pos sensitivity time mood data i
    (s.rest.getD i (0, 0, 0)) hm0 hm1 hs
  have h2 := mouseFactor_nonneg mouse (s.rest.getD i (0, 0, 0))
  linarith

/-- Witness for C7: a one-vertex mesh at rest position (9,12,0), silent
spectrum, sensitivity 0, mood 0, pointer at the origin. -/
theorem c7_witness :
    ((0 : ℝ) ≤ 0 ∧ (0 : ℝ) ≤ 1) ∧
    ((surfaceFrame 0 0 0 [0] (0, 0) ⟨[(9, 12, 0)], [(9, 12, 0)]⟩).rest =
        ([(9, 12, 0)] : List (ℝ × ℝ × ℝ)) ∧
      ∀ i, i < ([(9, 12, 0)] : List (ℝ × ℝ × ℝ)).length →
        (surfaceFrame 0 0 0 [0] (0, 0) ⟨[(9, 12, 0)], [(9, 12, 0)]⟩).live.getD i (0, 0, 0) =
          ((([(9, 12, 0)] : List (ℝ × ℝ × ℝ)).getD i (0, 0, 0)).1 *
              (surfaceDisplacement 0 0 0 [0] i (([(9, 12, 0)] : List (ℝ × ℝ × ℝ)).getD i (0, 0, 0)) +
                mouseFactor (0, 0) (([(9, 12, 0)] : List (ℝ × ℝ × ℝ)).getD i (0, 0, 0))),
           (([(9, 12, 0)] : List (ℝ × ℝ × ℝ)).getD i (0, 0, 0)).2.1 *
              (surfaceDisplacement 0 0 0 [0] i (([(9, 12, 0)] : List (ℝ × ℝ × ℝ)).getD i (0, 0, 0)) +
                mouseFactor (0, 0) (([(9, 12, 0)] : List (ℝ × ℝ × ℝ)).getD i (0, 0, 0))),
           (([(9, 12, 0)] : List (ℝ × ℝ × ℝ)).getD i (0, 0, 0)).2.2 *
              (surfaceDisplacement 0 0 0 [0] i (([(9, 12, 0)] : List (ℝ × ℝ × ℝ)).getD i (0, 0, 0)) +
                mouseFactor (0, 0) (([(9, 12, 0)] : List (ℝ × ℝ × ℝ)).getD i (0, 0, 0)))) ∧
        0 < surfaceDisplacement 0 0 0 [0] i (([(9, 12, 0)] : List (ℝ × ℝ × ℝ)).getD i (0, 0, 0)) +
            mouseFactor (0, 0) (([(9, 12, 0)] : List (ℝ × ℝ × ℝ)).getD i (0, 0, 0))) :=
  ⟨⟨le_refl 0, by norm_num⟩,
    c7_surface_rest_immutable_radial 0 0 0 [0] (0, 0) ⟨[(9, 12, 0)], [(9, 12, 0)]⟩
      (le_refl 0) (by norm_num) (le_refl 0)⟩

theorem sphere_point_norm (count i : ℕ) :
    sphereX count i ^ 2 + sphereY count i ^ 2 + sphereZ count i ^ 2 = 1 := by
  unfold sphereX sphereY sphereZ
  have h1 := Real.sin_sq_add_cos_sq (azimuth i)
  have h2 := Real.sin_sq_add_cos_sq (inclination count i)
  nlinarith [h1, h2]

theorem ferroSpike_nonneg (count i : ℕ) (time : ℝ) :
    0 ≤ ferroSpike count i time := le_max_left _ _

theorem ferroDisplacement_ge_twelve (count i : ℕ) (time bass mood : ℝ)
    (hb : 0 ≤ bass) (hm : 0 ≤ mood) :
    12 ≤ ferroDisplacement count i time bass mood := by
  unfold ferroDisplacement noiseAmp
  have hs := ferroSpike_nonneg count i time
  nlinarith [mul_nonneg (mul_nonneg hs (by nlinarith : (0 : ℝ) ≤ 4 + bass / 255 * 8))
    (by linarith : (0 : ℝ) ≤ 1 / 2 + mood)]

/-- Claim C3 (amended): in Ferrofluid mode the radial displacement added to
the base radius 12 is never negative for nonnegative bass and mood (the
two-octave noise spike is clamped at >= 0), so no instance's mode-computed
position, before the pointer-repulsion step, lies strictly inside the sphere
of radius 12 about the origin.  (The subsequent pointer-repulsion step can
move an instance strictly inside that sphere; see the counterexample.) -/
theorem c3_ferro_mode_position_outside (count i : ℕ) (time bass mood : ℝ)
    (hb : 0 ≤ bass) (hm : 0 ≤ mood) :
    12 ≤ ferroDisplacement count i time bass mood ∧
    144 ≤ (ferroPosition count i time bass mood).1 ^ 2 +
        (ferroPosition count i time bass mood).2.1 ^ 2 +
        (ferroPosition count i time bass mood).2.2 ^ 2 := by
  have hd := ferroDisplacement_ge_twelve count i time bass mood hb hm
  refine ⟨hd, ?_⟩
  have hn := sphere_point_norm count i
  unfold ferroPosition
  dsimp only
  set d := ferroDisplacement count i time bass mood with hdd
  have hsq : (sphereX count i * d) ^ 2 + (sphereY count i * d) ^ 2 +
      (sphereZ count i * d) ^ 2 = d ^ 2 := by
    linear_combination d ^ 2 * hn
  rw [hsq]
  nlinarith [hd, sq_nonneg (d - 12)]

/-- Witness for the amended C3 at count 2500, instance 0, time 0, silent
bass, calm mood. -/
theorem c3_witness :
    ((0 : ℝ) ≤ 0) ∧
    (12 ≤ ferroDisplacement 2500 0 0 0 0 ∧
      144 ≤ (ferroPosition 2500 0 0 0 0).1 ^ 2 +
          (ferroPosition 2500 0 0 0 0).2.1 ^ 2 +
          (ferroPosition 2500 0 0 0 0).2.2 ^ 2) :=
  ⟨le_refl 0, c3_ferro_mode_position_outside 2500 0 0 0 0 (le_refl 0) (le_refl 0)⟩

theorem advanceSignals_silent_startR :
    advanceSignals (⟨0, 0, 0, 0⟩ : SignalState ℝ)
      (⟨zeroAudio.bass, zeroAudio.mid, zeroAudio.treble⟩ : AudioBands ℝ) =
      (⟨0, 0, 1 / 5000, 1 / 1000⟩, 0, 0) := by
  simp only [zeroAudio]
  unfold advanceSignals
  norm_num [min_def, max_def, Prod.ext_iff, SignalState.ext_iff]

theorem modePosition_jitter_irrelevant (cfg : VisualConfig) (count i : ℕ)
    (time bass mid mood normalizedFreq : ℝ) (j j' : ℕ → ℝ)
    (h : cfg.mode ≠ .grid) :
    modePosition cfg count i time bass mid mood normalizedFreq j =
      modePosition cfg count i time bass mid mood normalizedFreq j' := by
  unfold modePosition
  cases hm : cfg.mode <;> simp_all

theorem particleUpdate_jitter_irrelevant (lookAtE : ℝ × ℝ × ℝ → ℝ × ℝ × ℝ)
    (cfg : VisualConfig) (time : ℝ) (data : List ℕ) (bass mid mood : ℝ)
    (mouse : ℝ × ℝ) (j j' : ℕ → ℝ) (cPrimary cSecondary : ℝ × ℝ × ℝ)
    (count i : ℕ) (h : cfg.mode ≠ .grid) :
    particleUpdate lookAtE cfg time data bass mid mood mouse j cPrimary
        cSecondary count i =
      particleUpdate lookAtE cfg time data bass mid mood mouse j' cPrimary
        cSecondary count i := by
  unfold particleUpdate
  dsimp only
  rw [modePosition_jitter_irrelevant cfg count i time bass mid mood _ j j' h]

theorem updateParticles_jitter_irrelevant (lookAtE : ℝ × ℝ × ℝ → ℝ × ℝ × ℝ)
    (cfg : VisualConfig) (time : ℝ) (data : List ℕ) (bass mid mood : ℝ)
    (mouse : ℝ × ℝ) (j j' : ℕ → ℝ) (cPrimary cSecondary : ℝ × ℝ × ℝ)
    (count : ℕ) (h : cfg.mode ≠ .grid) :
    updateParticles lookAtE cfg time data bass mid mood mouse j cPrimary
        cSecondary count =
      updateParticles lookAtE cfg time data bass mid mood mouse j' cPrimary
        cSecondary count := by
  unfold updateParticles
  exact List.map_congr_left fun i _ =>
    particleUpdate_jitter_irrelevant lookAtE cfg time data bass mid mood mouse
      j j' cPrimary cSecondary count i h

/-- Claim C8: one full frame tick with the default (Orbit) preset, the
all-zero spectrum and the same session-start state, clock and pointer inputs
is deterministic: the Math.random() camera-shake sample and the Math.random()
Grid-jitter stream cannot influence any output, because mood and
normalizedBass are 0 and the Orbit branch never consults the jitter stream.
Both runs produce identical instance transforms, scales and colors, an
identical camera position, and identical bloom and rotation accumulators. -/
theorem c8_frame_tick_deterministic
    (oHSL : ℝ × ℝ × ℝ → ℝ → ℝ → ℝ → ℝ × ℝ × ℝ)
    (lookAtE : ℝ × ℝ × ℝ → ℝ × ℝ × ℝ)
    (basePrimary baseSecondary : ℝ × ℝ × ℝ) (rest : List (ℝ × ℝ × ℝ))
    (targetMouse : ℝ × ℝ) (time0 : ℝ) (mouse0 : ℝ × ℝ) (cam0 : ℝ × ℝ × ℝ)
    (rotY0 rotZ0 : ℝ) (r r' : ℝ) (j j' : ℕ → ℝ) :
    animate oHSL lookAtE DEFAULT_CONFIG basePrimary baseSecondary rest
      zeroAudio targetMouse r j (startState time0 mouse0 cam0 rotY0 rotZ0) =
    animate oHSL lookAtE DEFAULT_CONFIG basePrimary baseSecondary rest
      zeroAudio targetMouse r' j' (startState time0 mouse0 cam0 rotY0 rotZ0) := by
  unfold animate startState
  dsimp only
  rw [advanceSignals_silent_startR]
  dsimp only
  simp only [mul_zero, zero_mul, add_zero, zero_add, sub_zero]
  rw [updateParticles_jitter_irrelevant lookAtE DEFAULT_CONFIG _ _ _ _ _ _ j j'
    _ _ _ (by decide)]

theorem sqrt_five_bounds :
    (2.23606797 : ℝ) < Real.sqrt 5 ∧ Real.sqrt 5 < 2.23606798 := by
  constructor
  · rw [Real.lt_sqrt (by norm_num)]
    norm_num
  · rw [Real.sqrt_lt' (by norm_num)]
    norm_num

theorem cubic_mono {a x : ℝ} (h : a ≤ x) (ha : -1 ≤ a) (hx : x ≤ 1) :
    a - a ^ 3 / 6 ≤ x - x ^ 3 / 6 := by
  have ha1 : a ≤ 1 := le_trans h hx
  have hx1 : -1 ≤ x := le_trans ha h
  obtain ⟨hp, _⟩ := mul_mem_unit_ball ha ha1 hx1 hx
  have hxx : x ^ 2 ≤ 1 := by nlinarith
  have haa : a ^ 2 ≤ 1 := by nlinarith
  nlinarith [mul_nonneg (by linarith : (0 : ℝ) ≤ x - a)
    (by nlinarith : (0 : ℝ) ≤ 6 - (x ^ 2 + a * x + a ^ 2))]

theorem sin_within {x a b : ℝ} (ha : a ≤ x) (hb : x ≤ b) (ha0 : 0 ≤ a)
    (hb1 : b ≤ 1) :
    a - a ^ 3 / 6 - b ^ 4 * (5 / 96) ≤ Real.sin x ∧
      Real.sin x ≤ b - b ^ 3 / 6 + b ^ 4 * (5 / 96) := by
  have hx0 : 0 ≤ x := le_trans ha0 ha
  have hxb : x ≤ 1 := le_trans hb hb1
  have habs : |x| ≤ 1 := abs_le.mpr ⟨by linarith, hxb⟩
  have hbound := Real.sin_bound habs
  have hxx : |x| ^ 4 ≤ b ^ 4 := by
    rw [abs_of_nonneg hx0]
    exact pow_le_pow_left hx0 hb 4
  have herr : |Real.sin x - (x - x ^ 3 / 6)| ≤ b ^ 4 * (5 / 96) :=
    le_trans hbound (by nlinarith)
  rw [abs_le] at herr
  have hm1 := cubic_mono ha (by linarith) hxb
  have hm2 := cubic_mono hb (by linarith) hb1
  exact ⟨by linarith [herr.1], by linarith [herr.2]⟩

theorem cos_within {x a b : ℝ} (ha : a ≤ x) (hb : x ≤ b) (ha0 : 0 ≤ a)
    (hb1 : b ≤ 1) :
    1 - b ^ 2 / 2 - b ^ 4 * (5 / 96) ≤ Real.cos x ∧
      Real.cos x ≤ 1 - a ^ 2 / 2 + b ^ 4 * (5 / 96) := by
  have hx0 : 0 ≤ x := le_trans ha0 ha
  have hxb : x ≤ 1 := le_trans hb hb1
  have habs : |x| ≤ 1 := abs_le.mpr ⟨by linarith, hxb⟩
  have hbound := Real.cos_bound habs
  have hxx : |x| ^ 4 ≤ b ^ 4 := by
    rw [abs_of_nonneg hx0]
    exact pow_le_pow_left hx0 hb 4
  have herr : |Real.cos x - (1 - x ^ 2 / 2)| ≤ b ^ 4 * (5 / 96) :=
    le_trans hbound (by nlinarith)
  rw [abs_le] at herr
  have h1 : x ^ 2 ≤ b ^ 2 := by nlinarith
  have h2 : a ^ 2 ≤ x ^ 2 := by nlinarith
  exact ⟨by linarith [herr.1], by linarith [herr.2]⟩

theorem div_within {a b al ah bl bh : ℝ} (ha1 : al ≤ a) (ha2 : a ≤ ah)
    (hb1 : bl ≤ b) (hb2 : b ≤ bh) (hbl : 0 < bl) (hal : 0 ≤ al) :
    al / bh ≤ a / b ∧ a / b ≤ ah / bl := by
  have hb0 : 0 < b := lt_of_lt_of_le hbl hb1
  have hbh : 0 < bh := lt_of_lt_of_le hb0 hb2
  constructor
  · rw [div_le_div_iff hbh hb0]
    nlinarith
  · rw [div_le_div_iff hb0 hbl]
    nlinarith

theorem sqrt_within {s l u : ℝ} (h1 : l ^ 2 ≤ s) (h2 : s ≤ u ^ 2) (hl : 0 ≤ l)
    (hu : 0 ≤ u) : l ≤ Real.sqrt s ∧ Real.sqrt s ≤ u := by
  constructor
  · rw [Real.le_sqrt hl (le_trans (by positivity) h1)]
    exact h1
  · have h := Real.sqrt_le_sqrt h2
    rwa [Real.sqrt_sq hu] at h

theorem c3_inclination_eq : inclination 2500 1250 = Real.pi / 2 := by
  unfold inclination sphereT
  norm_num [Real.arccos_zero]

theorem c3_sz_eq : sphereZ 2500 1250 = 0 := by
  unfold sphereZ
  rw [c3_inclination_eq, Real.cos_pi_div_two]

theorem c3_azimuth_eq :
    azimuth 1250 =
      Real.pi * (1250 * Real.sqrt 5 - 2795) + Real.pi + (2022 : ℤ) * (2 * Real.pi) := by
  unfold azimuth
  push_cast
  ring

theorem c3_sx_eq :
    sphereX 2500 1250 = -Real.cos (Real.pi * (1250 * Real.sqrt 5 - 2795)) := by
  unfold sphereX
  rw [c3_inclination_eq, Real.sin_pi_div_two, c3_azimuth_eq,
    Real.cos_add_int_mul_two_pi, Real.cos_add_pi]
  ring

theorem c3_sy_eq :
    sphereY 2500 1250 = -Real.sin (Real.pi * (1250 * Real.sqrt 5 - 2795)) := by
  unfold sphereY
  rw [c3_inclination_eq, Real.sin_pi_div_two, c3_azimuth_eq,
    Real.sin_add_int_mul_two_pi, Real.sin_add_pi]
  ring

theorem c3_delta_bounds :
    (0.26691 : ℝ) ≤ Real.pi * (1250 * Real.sqrt 5 - 2795) ∧
      Real.pi * (1250 * Real.sqrt 5 - 2795) ≤ 0.26696 := by
  obtain ⟨h5l, h5r⟩ := sqrt_five_bounds
  have hπl := Real.pi_gt_d6
  have hπr := Real.pi_lt_d6
  have hal : (0.0849625 : ℝ) ≤ 1250 * Real.sqrt 5 - 2795 := by linarith
  have hah : (1250 : ℝ) * Real.sqrt 5 - 2795 ≤ 0.08497500 := by linarith
  constructor <;> nlinarith

theorem c3_sx_bounds :
    (-0.9647 : ℝ) ≤ sphereX 2500 1250 ∧ sphereX 2500 1250 ≤ -0.9641 := by
  obtain ⟨hdl, hdh⟩ := c3_delta_bounds
  obtain ⟨hcl, hch⟩ := cos_within hdl hdh (by norm_num) (by norm_num)
  rw [c3_sx_eq]
  constructor <;> nlinarith

theorem c3_sy_bounds :
    (-0.26406 : ℝ) ≤ sphereY 2500 1250 ∧ sphereY 2500 1250 ≤ -0.26347 := by
  obtain ⟨hdl, hdh⟩ := c3_delta_bounds
  obtain ⟨hsl, hsh⟩ := sin_within hdl hdh (by norm_num) (by norm_num)
  rw [c3_sy_eq]
  constructor <;> nlinarith

set_option maxHeartbeats 2000000 in
theorem c3_n1_le : ferroN1 2500 1250 (1101 / 200) ≤ -0.9988 := by
  obtain ⟨hxl, hxh⟩ := c3_sx_bounds
  obtain ⟨hyl, hyh⟩ := c3_sy_bounds
  have hπl := Real.pi_gt_d6
  have hπr := Real.pi_lt_d6
  unfold ferroN1 simpleNoise
  rw [c3_sz_eq]
  simp only [zero_mul, Real.sin_zero, Real.cos_zero, mul_one, mul_zero, add_zero]
  set A1 := sphereX 2500 1250 * 3 + 1101 / 200 with hA1def
  set B1 := sphereY 2500 1250 * 3 + 1101 / 200 with hB1def
  have hA1l : (2.6109 : ℝ) ≤ A1 := by rw [hA1def]; nlinarith
  have hA1h : A1 ≤ 2.6127 := by rw [hA1def]; nlinarith
  have hu1 : (0.528892 : ℝ) ≤ Real.pi - A1 := by nlinarith
  have hu2 : Real.pi - A1 ≤ 0.530693 := by nlinarith
  obtain ⟨hsAl, hsAh⟩ := sin_within hu1 hu2 (by norm_num) (by norm_num)
  have hsA1l : (0.5 : ℝ) ≤ Real.sin A1 := by
    rw [← Real.sin_pi_sub A1]; nlinarith [hsAl]
  have hsA1h : Real.sin A1 ≤ 0.51 := by
    rw [← Real.sin_pi_sub A1]; nlinarith [hsAh]
  have hv1 : (0.0004 : ℝ) ≤ B1 - 3 * Real.pi / 2 := by rw [hB1def]; nlinarith
  have hv2 : B1 - 3 * Real.pi / 2 ≤ 0.002202 := by rw [hB1def]; nlinarith
  have hcosB1 : Real.cos B1 = Real.sin (B1 - 3 * Real.pi / 2) := by
    conv_lhs => rw [show B1 = B1 - 3 * Real.pi / 2 + Real.pi + Real.pi / 2 by ring]
    rw [Real.cos_add_pi_div_two, Real.sin_add_pi, neg_neg]
  have hsinB1 : Real.sin B1 = -Real.cos (B1 - 3 * Real.pi / 2) := by
    conv_lhs => rw [show B1 = B1 - 3 * Real.pi / 2 + Real.pi + Real.pi / 2 by ring]
    rw [Real.sin_add_pi_div_two, Real.cos_add_pi]
  obtain ⟨hsvl, hsvh⟩ := sin_within hv1 hv2 (by norm_num) (by norm_num)
  obtain ⟨hcvl, _⟩ := cos_within hv1 hv2 (by norm_num) (by norm_num)
  rw [hcosB1, hsinB1]
  have hsv0 : (0 : ℝ) ≤ Real.sin (B1 - 3 * Real.pi / 2) := by nlinarith [hsvl]
  have hprod : Real.sin A1 * Real.sin (B1 - 3 * Real.pi / 2) ≤ 0.51 * 0.0022021 := by
    have hsvh' : Real.sin (B1 - 3 * Real.pi / 2) ≤ 0.0022021 := by nlinarith [hsvh]
    exact mul_le_mul hsA1h hsvh' hsv0 (by norm_num)
  nlinarith [hcvl]

set_option maxHeartbeats 2000000 in
theorem c3_n2_le : ferroN2 2500 1250 (1101 / 200) ≤ 0.7664 := by
  obtain ⟨hxl, hxh⟩ := c3_sx_bounds
  obtain ⟨hyl, hyh⟩ := c3_sy_bounds
  have hπl := Real.pi_gt_d6
  have hπr := Real.pi_lt_d6
  unfold ferroN2 simpleNoise
  rw [c3_sz_eq]
  simp only [zero_mul, Real.sin_zero, Real.cos_zero, mul_one, mul_zero, add_zero]
  set C1 := sphereX 2500 1250 * 10 with hC1def
  set D1 := sphereY 2500 1250 * 10 + 1101 / 200 * 2 with hD1def
  have hsinC1 : Real.sin C1 = Real.sin (C1 + 4 * Real.pi) := by
    conv_lhs => rw [show C1 = C1 + 4 * Real.pi + (-2 : ℤ) * (2 * Real.pi) by
      push_cast; ring]
    rw [Real.sin_add_int_mul_two_pi]
  have hw1 : (2.919368 : ℝ) ≤ C1 + 4 * Real.pi := by rw [hC1def]; nlinarith
  have hw2 : C1 + 4 * Real.pi ≤ 2.925372 := by rw [hC1def]; nlinarith
  have hu1 : (0.21622 : ℝ) ≤ Real.pi - (C1 + 4 * Real.pi) := by nlinarith
  have hu2 : Real.pi - (C1 + 4 * Real.pi) ≤ 0.222225 := by nlinarith
  obtain ⟨hsul, hsuh⟩ := sin_within hu1 hu2 (by norm_num) (by norm_num)
  have hsC1l : (0.2143 : ℝ) ≤ Real.sin C1 := by
    rw [hsinC1, ← Real.sin_pi_sub (C1 + 4 * Real.pi)]
    nlinarith [hsul]
  have hsC1h : Real.sin C1 ≤ 0.2206 := by
    rw [hsinC1, ← Real.sin_pi_sub (C1 + 4 * Real.pi)]
    nlinarith [hsuh]
  have hcosD1 : Real.cos D1 = -Real.sin (D1 - 2 * Real.pi - Real.pi / 2) := by
    conv_lhs => rw [show D1 = D1 - 2 * Real.pi - Real.pi / 2 + Real.pi / 2 +
      (1 : ℤ) * (2 * Real.pi) by push_cast; ring]
    rw [Real.cos_add_int_mul_two_pi, Real.cos_add_pi_div_two]
  have hsinD1 : Real.sin D1 = Real.cos (D1 - 2 * Real.pi - Real.pi / 2) := by
    conv_lhs => rw [show D1 = D1 - 2 * Real.pi - Real.pi / 2 + Real.pi / 2 +
      (1 : ℤ) * (2 * Real.pi) by push_cast; ring]
    rw [Real.sin_add_int_mul_two_pi, Real.sin_add_pi_div_two]
  have hv1 : (0.5154 : ℝ) ≤ D1 - 2 * Real.pi - Real.pi / 2 := by
    rw [hD1def]; nlinarith
  have hv2 : D1 - 2 * Real.pi - Real.pi / 2 ≤ 0.52132 := by
    rw [hD1def]; nlinarith
  obtain ⟨hsvl, hsvh⟩ := sin_within hv1 hv2 (by norm_num) (by norm_num)
  obtain ⟨hcvl, hcvh⟩ := cos_within hv1 hv2 (by norm_num) (by norm_num)
  have hcD1h : Real.cos D1 ≤ -0.4886 := by
    rw [hcosD1]; nlinarith [hsvl]
  have hsD1h : Real.sin D1 ≤ 0.8711 := by
    rw [hsinD1]; nlinarith [hcvh]
  have hprod : Real.sin C1 * Real.cos D1 ≤ 0.2143 * (-0.4886) := by
    have h1 : Real.sin C1 * Real.cos D1 ≤ Real.sin C1 * (-0.4886) :=
      mul_le_mul_of_nonneg_left hcD1h (by linarith)
    nlinarith
  nlinarith

theorem c3_spike_zero : ferroSpike 2500 1250 (1101 / 200) = 0 := by
  unfold ferroSpike
  apply max_eq_left
  nlinarith [c3_n1_le, c3_n2_le]

theorem c3_displacement_eq :
    ferroDisplacement 2500 1250 (1101 / 200) 0 0 = 12 := by
  unfold ferroDisplacement
  rw [c3_spike_zero]
  ring

theorem c3_position_eq :
    ferroPosition 2500 1250 (1101 / 200) 0 0 =
      (sphereX 2500 1250 * 12, sphereY 2500 1250 * 12, 0) := by
  unfold ferroPosition
  rw [c3_displacement_eq, c3_sz_eq]
  norm_num

theorem applyRepulsion_of_ne_zero {x y mwx mwy : ℝ}
    (h10 : repDist x y mwx mwy < 10) (h0 : ¬ repDist x y mwx mwy = 0) :
    applyRepulsion x y mwx mwy =
      some (x + (x - mwx) / repDist x y mwx mwy * repForce x y mwx mwy,
            y + (y - mwy) / repDist x y mwx mwy * repForce x y mwx mwy) := by
  unfold applyRepulsion jsDivR
  simp only [if_pos h10, if_neg h0]

set_option maxHeartbeats 2000000 in
/-- Counterexample to C3: in Ferrofluid mode with count 2500, instance 1250,
time 5.505, bass 0, mood 0 and pointer at normalized (-0.8, -0.22) (world
(-16, -4.4)), the noise spike is clamped to 0 and the mode position has
norm exactly 12, yet the pointer-repulsion step pushes the instance to a
final position of squared norm below 87 < 144: the instance ends strictly
inside the sphere of radius 12, refuting the claim for this pointer
position. -/
theorem c3_counterexample :
    insideRadius12
      (ferroFinalPosition 2500 1250 (1101 / 200) 0 0 (-(4 / 5)) (-(11 / 50))) := by
  obtain ⟨hxl, hxh⟩ := c3_sx_bounds
  obtain ⟨hyl, hyh⟩ := c3_sy_bounds
  unfold ferroFinalPosition
  rw [c3_position_eq]
  dsimp only
  rw [show (-(4 / 5) : ℝ) * 20 = -16 by norm_num,
    show (-(11 / 50) : ℝ) * 20 = -4.4 by norm_num]
  set x := sphereX 2500 1250 * 12 with hxdef
  set y := sphereY 2500 1250 * 12 with hydef
  have hx1 : (-11.5764 : ℝ) ≤ x := by rw [hxdef]; nlinarith
  have hx2 : x ≤ -11.5692 := by rw [hxdef]; nlinarith
  have hy1 : (-3.16872 : ℝ) ≤ y := by rw [hydef]; nlinarith
  have hy2 : y ≤ -3.16164 := by rw [hydef]; nlinarith
  have hrd : repDist x y (-16) (-4.4) =
      Real.sqrt ((x - -16) * (x - -16) + (y - -4.4) * (y - -4.4)) := rfl
  have hs1 : (4.5917 : ℝ) ^ 2 ≤ (x - -16) * (x - -16) + (y - -4.4) * (y - -4.4) := by
    nlinarith [mul_self_nonneg (x + 16 - 4.4236), mul_self_nonneg (y + 4.4 - 1.23128)]
  have hs2 : (x - -16) * (x - -16) + (y - -4.4) * (y - -4.4) ≤ (4.6007 : ℝ) ^ 2 := by
    nlinarith [mul_self_nonneg (x + 16 - 4.4308), mul_self_nonneg (y + 4.4 - 1.23836)]
  obtain ⟨hdl, hdh⟩ := sqrt_within hs1 hs2 (by norm_num) (by norm_num)
  rw [← hrd] at hdl hdh
  have hd10 : repDist x y (-16) (-4.4) < 10 := by linarith
  have hd0 : ¬ repDist x y (-16) (-4.4) = 0 := by intro h; rw [h] at hdl; linarith
  rw [applyRepulsion_of_ne_zero hd10 hd0]
  have hfdef : repForce x y (-16) (-4.4) =
      (1 - repDist x y (-16) (-4.4) / 10) * 5 := rfl
  have hf1 : (2.69965 : ℝ) ≤ repForce x y (-16) (-4.4) := by rw [hfdef]; linarith
  have hf2 : repForce x y (-16) (-4.4) ≤ 2.70415 := by rw [hfdef]; linarith
  obtain ⟨hux1, hux2⟩ := div_within
    (show (4.4236 : ℝ) ≤ x - -16 by linarith) (show x - -16 ≤ 4.4308 by linarith)
    hdl hdh (by norm_num) (by norm_num)
  obtain ⟨huy1, huy2⟩ := div_within
    (show (1.23128 : ℝ) ≤ y - -4.4 by linarith) (show y - -4.4 ≤ 1.23836 by linarith)
    hdl hdh (by norm_num) (by norm_num)
  have hux1' : (0.9615 : ℝ) ≤ (x - -16) / repDist x y (-16) (-4.4) :=
    le_trans (by norm_num) hux1
  have hux2' : (x - -16) / repDist x y (-16) (-4.4) ≤ 0.96496 :=
    le_trans hux2 (by norm_num)
  have huy1' : (0.26762 : ℝ) ≤ (y - -4.4) / repDist x y (-16) (-4.4) :=
    le_trans (by norm_num) huy1
  have huy2' : (y - -4.4) / repDist x y (-16) (-4.4) ≤ 0.2697 :=
    le_trans huy2 (by norm_num)
  set ux := (x - -16) / repDist x y (-16) (-4.4)
  set uy := (y - -4.4) / repDist x y (-16) (-4.4)
  set f := repForce x y (-16) (-4.4)
  have hf0 : (0 : ℝ) ≤ f := by linarith
  have hux0 : (0 : ℝ) ≤ ux := by linarith
  have huy0 : (0 : ℝ) ≤ uy := by linarith
  have huxf1 : (2.5957 : ℝ) ≤ ux * f :=
    le_trans (by norm_num) (mul_le_mul hux1' hf1 (by norm_num) hux0)
  have huxf2 : ux * f ≤ 2.6095 :=
    le_trans (mul_le_mul hux2' hf2 hf0 (by norm_num)) (by norm_num)
  have huyf1 : (0.7224 : ℝ) ≤ uy * f :=
    le_trans (by norm_num) (mul_le_mul huy1' hf1 (by norm_num) huy0)
  have huyf2 : uy * f ≤ 0.7294 :=
    le_trans (mul_le_mul huy2' hf2 hf0 (by norm_num)) (by norm_num)
  have hXl : (-8.9807 : ℝ) ≤ x + ux * f := by linarith
  have hXh : x + ux * f ≤ -8.9597 := by linarith
  have hYl : (-2.44632 : ℝ) ≤ y + uy * f := by linarith
  have hYh : y + uy * f ≤ -2.43224 := by linarith
  show (x + ux * f) ^ 2 + (y + uy * f) ^ 2 + (0 : ℝ) ^ 2 < 144
  nlinarith [mul_nonneg (sub_nonneg.mpr hXl) (sub_nonneg.mpr hXh),
    mul_nonneg (sub_nonneg.mpr hYl) (sub_nonneg.mpr hYh)]
